import Mathlib

/-!
Shallow embedding of the go-wren foreign-function bridge: the slot marshaler
(`getFromSlot`, `saveToSlot`), the call dispatcher (`handleFunction`), the
binding resolver (`bindMethod`, `bindClass`), the generated trampoline-table
allocator (`registerFunc` from the cgluer.go template), the registration
entry points (`RegisterForeignMethod`, `RegisterForeignClass`) and the tail
of `Value.Call`.

Modelling conventions:
* Wren numbers are IEEE doubles; they are modelled as rationals (every finite
  double is a rational, and the bridge only stores, widens or truncates them;
  it performs no arithmetic of its own).
* The slots of the active call context are a list; reading past the ensured
  slot region (undefined behaviour in the C API) is modelled as an error.
* A Go panic is modelled as the `err` branch of the `Res` result type.
  Inside `handleFunction` the deferred `recover` turns every panic into the
  function's returned `error`, so `handleFunction` returning `Res.err`
  corresponds exactly to the recovered-and-returned error of the source.
  A panic that no caller recovers (in `bindClass`, or escaping the closure
  registered by `RegisterForeignMethod`) stays an `err`/`panicked` value.
-/

/-- Result of a Go computation that can panic or return an error: `err`
carries the panic/error message. -/
inductive Res (α : Type) where
  | ok (a : α)
  | err (e : String)
  deriving DecidableEq, Repr

/-- A value stored in one Wren slot, tagged as by `wrenGetSlotType`. -/
inductive WrenSlotVal where
  | vbool (b : Bool)
  | vnum (x : ℚ)
  | vforeign (ptr : Nat)
  | vlist
  | vnull
  | vstr (s : String)
  | vunknown
  deriving DecidableEq, Repr

/-- The Go-side (reflect) kind of a declared parameter or return type of a
registered host function.  `tforeignPtr` stands for a pointer type to a
foreign struct. -/
inductive GoType where
  | tbool
  | tint
  | tuint
  | tfloat
  | tstring
  | tforeignPtr
  deriving DecidableEq, Repr

/-- A Go runtime value as handled by the dispatcher through `reflect.Value`.
`ginvalid` is the zero `reflect.Value{}` (produced for a null slot). -/
inductive GoVal where
  | gbool (b : Bool)
  | gint (n : Int)
  | guint (n : Nat)
  | gfloat (x : ℚ)
  | gstring (s : String)
  | gptr (p : Nat)
  | ginvalid
  deriving DecidableEq, Repr

/-- Go conversion of a float64 (modelled as ℚ) to an integer value:
truncation toward zero, as `reflect.Value.Convert` performs for in-range
values. -/
def ratTrunc (q : ℚ) : Int :=
  Int.tdiv q.num (q.den : Int)

def isNumericType : GoType → Bool
  | .tint | .tuint | .tfloat => true
  | _ => false

/-- The value produced by converting the double `q` read from a NUM slot to
the declared numeric Go parameter type (`reflect.ValueOf(n).Convert(ft.In(i))`).
Conversion of an out-of-range double to a Go unsigned type is
implementation-specific in Go; the model clamps at zero. -/
def numConv (t : GoType) (q : ℚ) : GoVal :=
  match t with
  | .tfloat => .gfloat q
  | .tint => .gint (ratTrunc q)
  | .tuint => .guint (ratTrunc q).toNat
  | _ => .ginvalid

/-- `reflect.ValueOf(n).Convert(target)`: succeeds for numeric targets and
panics for targets float64 is not convertible to. -/
def convertNum (q : ℚ) (t : GoType) : Res GoVal :=
  if isNumericType t then .ok (numConv t q)
  else .err "reflect: cannot convert float64 to this type"

/-- Embedding of `getFromSlot(vm, slot, in)` (and of the identical switch in
the older exported `HandleFunction`).  `expected = none` models the `nil`
type-information pointer passed by `Value.Call`.  `Res.err` models a Go
panic raised inside the switch. -/
def getFromSlot (slots : List WrenSlotVal) (slot : Nat) (expected : Option GoType) :
    Res GoVal :=
  match slots.get? slot with
  | none => .err "slot index out of range"
  | some sv =>
    match sv with
    | .vbool b => .ok (.gbool b)
    | .vnum x =>
      match expected with
      | some t => convertNum x t
      | none => .ok (.gfloat x)
    | .vforeign p =>
      match expected with
      | none => .err "cannot return foreign value without type information"
      | some .tforeignPtr => .ok (.gptr p)
      | some _ => .err "reflect: Elem of non-pointer type"
    | .vlist => .err "not sure how to get a list value from the slot"
    | .vnull => .ok .ginvalid
    | .vstr s => .ok (.gstring s)
    | .vunknown => .err "received an inaccessible-from-C parameter"

/-- Embedding of `saveToSlot(vm, slot, v)` (and of the identical switch in
the older `HandleFunction`): dispatch on the reflect kind of the value;
numeric kinds are widened to the VM double. -/
def saveToSlot (slots : List WrenSlotVal) (slot : Nat) (v : GoVal) :
    Res (List WrenSlotVal) :=
  match v with
  | .gbool b => .ok (slots.set slot (.vbool b))
  | .gfloat x => .ok (slots.set slot (.vnum x))
  | .gint n => .ok (slots.set slot (.vnum (n : ℚ)))
  | .guint n => .ok (slots.set slot (.vnum (n : ℚ)))
  | .gstring s => .ok (slots.set slot (.vstr s))
  | .gptr _ => .err "do not know how to return value of this type"
  | .ginvalid => .err "do not know how to return value of this type"

/-- A registered host function as the dispatcher sees it through reflection:
its declared parameter types and its behaviour on actual argument values.
A body returning `Res.err` models a panic inside the host function. -/
structure HostFunc where
  paramTypes : List GoType
  body : List GoVal → Res (List GoVal)

def assignableTo : GoVal → GoType → Bool
  | .gbool _, .tbool => true
  | .gint _, .tint => true
  | .guint _, .tuint => true
  | .gfloat _, .tfloat => true
  | .gstring _, .tstring => true
  | .gptr _, .tforeignPtr => true
  | _, _ => false

/-- The argument validation performed by `reflect.Value.Call`: a zero
`reflect.Value` argument or an argument whose runtime type is not
assignable to the declared parameter type makes `Call` panic before the
function body runs. -/
def checkArgs : List GoVal → List GoType → Option String
  | [], [] => none
  | v :: vs, t :: ts =>
    match v with
    | .ginvalid => some "reflect: Call using zero Value argument"
    | _ =>
      if assignableTo v t then checkArgs vs ts
      else some "reflect: Call using wrong argument type"
  | _, _ => some "reflect: Call with wrong number of arguments"

/-- `fv.Call(params)`: validate the arguments, then run the host function. -/
def goCall (f : HostFunc) (args : List GoVal) : Res (List GoVal) :=
  match checkArgs args f.paramTypes with
  | some e => .err e
  | none => f.body args

/-- Whether `wrenGetSlotType(vm, i)` reports `WREN_TYPE_UNKNOWN`, as tested
by the receiver special case of the dispatcher loop. -/
def isUnknownSlot (slots : List WrenSlotVal) (i : Nat) : Bool :=
  match slots.get? i with
  | some .vunknown => true
  | _ => false

/-- The parameter-decoding loop of `handleFunction`: for parameter index `i`
read slot `i + offset`; if `i == 0` and that slot's tag is unknown, advance
`offset` (and the slot) by one and decode the same parameter from the next
slot. -/
def decodeParamsAux (slots : List WrenSlotVal) :
    Nat → Nat → List GoType → Res (List GoVal)
  | _, _, [] => .ok []
  | i, offset, t :: ts =>
    let bump := i == 0 && isUnknownSlot slots (i + offset)
    let offset' := if bump then offset + 1 else offset
    match getFromSlot slots (i + offset') (some t) with
    | .err e => .err e
    | .ok v =>
      match decodeParamsAux slots (i + 1) offset' ts with
      | .err e => .err e
      | .ok vs => .ok (v :: vs)

def decodeParams (slots : List WrenSlotVal) (ptypes : List GoType) : Res (List GoVal) :=
  decodeParamsAux slots 0 0 ptypes

/-- Embedding of `handleFunction(vm, f)` (and of the older exported
`HandleFunction`): decode one argument per declared parameter, invoke the
function, and if it produced exactly one return value encode it into slot 0.
Every internal panic is recovered by the deferred handler and becomes the
returned error (`Res.err`). -/
def handleFunction (slots : List WrenSlotVal) (f : HostFunc) :
    Res (List WrenSlotVal) :=
  match decodeParams slots f.paramTypes with
  | .err e => .err e
  | .ok params =>
    match goCall f params with
    | .err e => .err e
    | .ok returnValues =>
      match returnValues with
      | [r] => saveToSlot slots 0 r
      | _ => .ok slots

/-- Outcome of running a trampoline closure from inside the VM: either it
returns normally with the updated call-context slots, or a Go panic escapes
it into the C stack of `wrenInterpret`/`wrenCall` (and from there to the
caller of `Interpret`). -/
inductive ClosureOutcome where
  | normal (slots : List WrenSlotVal)
  | panicked (msg : String)
  deriving DecidableEq, Repr

/-- The type of closures installed in the trampoline table. -/
def WrenClosure : Type := List WrenSlotVal → ClosureOutcome

/-- The closure that `RegisterForeignMethod` installs:
`func() { if err := handleFunction(vm.vm, f); err != nil { panic(err) } }`.
An error returned by the dispatcher is re-raised as a panic that escapes
into the VM call stack. -/
def foreignMethodClosure (f : HostFunc) : WrenClosure := fun slots =>
  match handleFunction slots f with
  | .ok s => ClosureOutcome.normal s
  | .err e => ClosureOutcome.panicked e

/-- The closure that `RegisterForeignClass` installs:
`func() { newForeign(vm.vm, f()) }`.  `newForeign` copies the constructed
Go value into freshly allocated VM-owned foreign storage exposed in slot 0;
the byte image is opaque at this level, so the stored object is represented
by an opaque foreign pointer. -/
def foreignClassClosure (_ctor : Unit → GoVal) : WrenClosure := fun slots =>
  ClosureOutcome.normal (slots.set 0 (.vforeign 0))

/-- The process-wide state of the generated trampoline table
(cgluer.go template): the registration counter and the index → closure
map `fMap`. -/
structure RegState where
  counter : Nat
  fMap : List (Nat × WrenClosure)

/-- Embedding of the generated `registerFunc(name, f)` with
`MAX_REGISTRATIONS = maxRegs`: reject when `counter+1 >= MAX_REGISTRATIONS`,
otherwise install the closure at index `counter`, return the native entry
point for that index (modelled by the index itself) and increment the
counter.  The `name` argument is unused, exactly as in the source. -/
def registerFunc (maxRegs : Nat) (st : RegState) (_name : String) (f : WrenClosure) :
    RegState × Res Nat :=
  if st.counter + 1 ≥ maxRegs then
    (st, .err "maximum function registration reached")
  else
    ({ counter := st.counter + 1, fMap := (st.counter, f) :: st.fMap }, .ok st.counter)

/-- Association-list lookup, modelling a read from a Go map. -/
def mapLookup (m : List (String × Nat)) (k : String) : Option Nat :=
  match m with
  | [] => none
  | (k', v) :: rest => if k' = k then some v else mapLookup rest k

/-- Association-list insert, modelling a Go map assignment: the new binding
shadows (overwrites) any previous binding of the same key. -/
def mapInsert (m : List (String × Nat)) (k : String) (v : Nat) : List (String × Nat) :=
  (k, v) :: m

/-- The per-VM part of the Bound VM Record: the canonical-name → trampoline
pointer maps (`classes`, `methods` fields of the `VM` struct). -/
structure VMRecord where
  methods : List (String × Nat)
  classes : List (String × Nat)

/-- Embedding of `(vm *VM).RegisterForeignMethod(fullName, f)`: allocate a
trampoline for the dispatching closure; on success store its pointer under
`fullName` in the per-VM methods map, on failure return the error. -/
def RegisterForeignMethod (maxRegs : Nat) (g : RegState) (vm : VMRecord)
    (fullName : String) (f : HostFunc) : RegState × VMRecord × Option String :=
  match registerFunc maxRegs g fullName (foreignMethodClosure f) with
  | (g', .err e) => (g', vm, some e)
  | (g', .ok ptr) =>
    (g', { vm with methods := mapInsert vm.methods fullName ptr }, none)

/-- Embedding of `(vm *VM).RegisterForeignClass(className, f)`. -/
def RegisterForeignClass (maxRegs : Nat) (g : RegState) (vm : VMRecord)
    (className : String) (ctor : Unit → GoVal) : RegState × VMRecord × Option String :=
  match registerFunc maxRegs g className (foreignClassClosure ctor) with
  | (g', .err e) => (g', vm, some e)
  | (g', .ok ptr) =>
    (g', { vm with classes := mapInsert vm.classes className ptr }, none)

/-- Embedding of the exported `bindMethod` callback: a non-"main" module is
refused with a null pointer (`none`); otherwise the canonical signature
string is built and looked up in the per-VM methods map. -/
def bindMethod (methods : List (String × Nat)) (module className : String)
    (isStatic : Bool) (signature : String) : Option Nat :=
  if module ≠ "main" then none
  else
    let fullName := (if isStatic then "static " else "") ++ className ++ "." ++ signature
    match mapLookup methods fullName with
    | some f => some f
    | none => none

/-- The canonical signature string the binder builds:
`"static "` prefix iff static, then `<class>.<signature>`. -/
def canonicalName (isStatic : Bool) (className signature : String) : String :=
  (if isStatic then "static " else "") ++ className ++ "." ++ signature

/-- Embedding of the exported `bindClass` callback.  `Res.err` models a Go
panic, which nothing on this path recovers (fatal). -/
def bindClass (classes : List (String × Nat)) (module className : String) : Res Nat :=
  if module ≠ "main" then .err "tried to bind foreign class from non-main module"
  else
    match mapLookup classes className with
    | some c => .ok c
    | none => .err ("foreign class " ++ className ++ " not found")

/-- Result of `wrenInterpret`/`wrenCall`. -/
inductive InterpretResult where
  | success
  | compileError
  | runtimeError
  deriving DecidableEq, Repr

/-- Embedding of `interpretResultToErr`. -/
def interpretResultToErr : InterpretResult → Option String
  | .success => none
  | .compileError => some "compilation error"
  | .runtimeError => some "runtime error"

/-- `reflect.Value.IsValid`: false only for the zero `reflect.Value`. -/
def goValIsValid : GoVal → Bool
  | .ginvalid => false
  | _ => true

/-- The Go return pair `(interface{}, error)` of `Value.Call`, or a panic
escaping it (`Value.Call` installs no recover). -/
inductive CallResult where
  | returned (val : Option GoVal) (err : Option String)
  | panicked (msg : String)
  deriving DecidableEq, Repr

/-- Embedding of the tail of `Value.Call` after `wrenCall` returns: a
failed interpret result is returned as the error; otherwise slot 0 is read
with no type information and returned when valid, and `(nil, nil)` is
returned when it is the zero value. -/
def valueCallResult (res : InterpretResult) (slots : List WrenSlotVal) : CallResult :=
  match interpretResultToErr res with
  | some e => .returned none (some e)
  | none =>
    match getFromSlot slots 0 none with
    | .err msg => .panicked msg
    | .ok v =>
      if goValIsValid v then .returned (some v) none
      else .returned none none

/-- A two-parameter host function built from declared parameter types and a
binary operation on the received values, returning one value
(`func(x T1, y T2) R`). -/
def mkBinop (t1 t2 : GoType) (g : GoVal → GoVal → GoVal) : HostFunc where
  paramTypes := [t1, t2]
  body := fun args =>
    match args with
    | [x, y] => .ok [g x y]
    | _ => .err "wrong number of arguments"

def goValInt : GoVal → Int
  | .gint n => n
  | _ => 0

/-- The integer addition passed to `RegisterForeignMethod` in
`TestForeignMethod`: `func(a, b int) int { return a + b }`. -/
def addG : GoVal → GoVal → GoVal := fun x y => .gint (goValInt x + goValInt y)

def goMathAddFn : HostFunc := mkBinop .tint .tint addG

/-- A closure that leaves the call context unchanged (used to fill the
trampoline table when only the registration counter matters). -/
def nopClosure : WrenClosure := fun slots => ClosureOutcome.normal slots

/-- Run `k` registration attempts against the trampoline table and count the
successes. -/
def registerMany (maxRegs : Nat) : Nat → RegState → RegState × Nat
  | 0, st => (st, 0)
  | k + 1, st =>
    match registerFunc maxRegs st "f" nopClosure with
    | (st', .ok _) =>
      let r := registerMany maxRegs k st'
      (r.1, r.2 + 1)
    | (st', .err _) =>
      let r := registerMany maxRegs k st'
      (r.1, r.2)

def isNumericVal : GoVal → Bool
  | .gint _ | .guint _ | .gfloat _ => true
  | _ => false

/-- The widening to the VM double that `saveToSlot` performs on a numeric
return value. -/
def numWiden : GoVal → ℚ
  | .gfloat x => x
  | .gint n => (n : ℚ)
  | .guint n => (n : ℚ)
  | _ => 0

/-- The slot value a Go return value is encoded to, if its kind is one the
`saveToSlot` switch supports. -/
def encodeScalar : GoVal → Option WrenSlotVal
  | .gbool b => some (.vbool b)
  | .gfloat x => some (.vnum x)
  | .gint n => some (.vnum (n : ℚ))
  | .guint n => some (.vnum (n : ℚ))
  | .gstring s => some (.vstr s)
  | .gptr _ => none
  | .ginvalid => none

/-- Reference decoder used to state the offset behaviour: decode parameter
`i` from slot `base + i`, with no receiver special case. -/
def decodeFrom (slots : List WrenSlotVal) : Nat → List GoType → Res (List GoVal)
  | _, [] => .ok []
  | base, t :: ts =>
    match getFromSlot slots base (some t) with
    | .err e => .err e
    | .ok v =>
      match decodeFrom slots (base + 1) ts with
      | .err e => .err e
      | .ok vs => .ok (v :: vs)

lemma saveToSlot_numeric (slots : List WrenSlotVal) (i : Nat) (v : GoVal)
    (h : isNumericVal v = true) :
    saveToSlot slots i v = .ok (slots.set i (.vnum (numWiden v))) := by
  cases v <;> simp_all [saveToSlot, isNumericVal, numWiden]

lemma saveToSlot_encode (slots : List WrenSlotVal) (i : Nat) (v : GoVal) :
    saveToSlot slots i v =
      match encodeScalar v with
      | some w => .ok (slots.set i w)
      | none => .err "do not know how to return value of this type" := by
  cases v <;> rfl

lemma decodeAux_pos (slots : List WrenSlotVal) :
    ∀ (ts : List GoType) (i offset : Nat), i ≠ 0 →
      decodeParamsAux slots i offset ts = decodeFrom slots (i + offset) ts := by
  intro ts
  induction ts with
  | nil => intro i offset _; rfl
  | cons t ts ih =>
    intro i offset hi
    obtain ⟨j, rfl⟩ : ∃ j, i = j + 1 := ⟨i - 1, by omega⟩
    show decodeParamsAux slots (j + 1) offset (t :: ts) = _
    rw [decodeParamsAux, decodeFrom]
    have hbump : ((j + 1 == 0) && isUnknownSlot slots (j + 1 + offset)) = false := by
      simp
    rw [hbump]
    simp only [if_neg Bool.false_ne_true]
    cases hres : getFromSlot slots (j + 1 + offset) (some t) with
    | err e => rfl
    | ok v =>
      rw [ih (j + 2) offset (by omega)]
      have harith : j + 2 + offset = j + 1 + offset + 1 := by omega
      rw [harith]

lemma decodeParams_unknown (slots : List WrenSlotVal)
    (h : isUnknownSlot slots 0 = true) (ptypes : List GoType) :
    decodeParams slots ptypes = decodeFrom slots 1 ptypes := by
  cases ptypes with
  | nil => rfl
  | cons t ts =>
    rw [decodeParams, decodeParamsAux, decodeFrom]
    simp only [Nat.add_zero, Nat.zero_add, h, beq_self_eq_true, Bool.true_and, if_true]
    rw [decodeAux_pos slots ts 1 1 (by omega)]

lemma decodeParams_known (slots : List WrenSlotVal)
    (h : isUnknownSlot slots 0 = false) (ptypes : List GoType) :
    decodeParams slots ptypes = decodeFrom slots 0 ptypes := by
  cases ptypes with
  | nil => rfl
  | cons t ts =>
    rw [decodeParams, decodeParamsAux, decodeFrom]
    simp only [Nat.add_zero, Nat.zero_add, h, beq_self_eq_true, Bool.true_and,
      Bool.false_eq_true, if_false]
    rw [decodeAux_pos slots ts 1 0 (by omega)]

lemma decodeFrom_cons_shift (sv : WrenSlotVal) (rest : List WrenSlotVal) :
    ∀ (ts : List GoType) (k : Nat),
      decodeFrom (sv :: rest) (k + 1) ts = decodeFrom rest k ts := by
  intro ts
  induction ts with
  | nil => intro k; rfl
  | cons t ts ih =>
    intro k
    rw [decodeFrom, decodeFrom]
    have hget : getFromSlot (sv :: rest) (k + 1) (some t) = getFromSlot rest k (some t) := by
      rw [getFromSlot, getFromSlot, List.get?_cons_succ]
    rw [hget, ih (k + 1)]

lemma decodeFrom_strings :
    ∀ (strs : List String) (ptypes : List GoType), strs.length = ptypes.length →
      decodeFrom (strs.map .vstr) 0 ptypes = .ok (strs.map .gstring) := by
  intro strs
  induction strs with
  | nil =>
    intro ptypes hlen
    cases ptypes with
    | nil => rfl
    | cons t ts => simp at hlen
  | cons s ss ih =>
    intro ptypes hlen
    cases ptypes with
    | nil => simp at hlen
    | cons t ts =>
      rw [List.map_cons, decodeFrom]
      have hget : getFromSlot (WrenSlotVal.vstr s :: ss.map .vstr) 0 (some t)
          = .ok (.gstring s) := rfl
      rw [hget, decodeFrom_cons_shift, ih ts (by simpa using hlen)]
      rfl


/-- A zero-parameter host function returning no values
(`func() {}` as seen through reflection). -/
def noopFn : HostFunc where
  paramTypes := []
  body := fun _ => .ok []

set_option maxRecDepth 4000 in
/-- C1: evaluation of the generated `registerFunc` guard
`(counter+1) >= MAX_REGISTRATIONS` at the documented capacity of 128
trampolines: of 128 registration attempts only 127 succeed, the counter
then stands at 127 (so trampoline index 127 is still free), and the 128th
registration is rejected with the capacity error — against the claim (and
the package documentation "limited to 128") that the first N = 128
registrations succeed and the (N+1)-th is the first to fail. -/
theorem registerFunc_rejects_last_slot :
    (registerMany 128 128 ⟨0, []⟩).2 = 127 ∧
    (registerMany 128 127 ⟨0, []⟩).1.counter = 127 ∧
    (registerFunc 128 (registerMany 128 127 ⟨0, []⟩).1 "g" nopClosure).2
      = .err "maximum function registration reached" :=
  ⟨by decide, by decide, by decide⟩

/-- C2 counterexample: dispatching the registered `GoMath.add` closure on
string arguments (the script call `GoMath.add("x", "y")` of
`TestForeignMethod`) makes the registered closure panic out into the VM
call stack, so the failure reaches the `Interpret` caller as a panic the
caller must recover — not as an error value returned by `Interpret`, and
unrecovered it aborts the process. -/
theorem dispatch_error_panics_counterexample :
    foreignMethodClosure goMathAddFn [.vunknown, .vstr "x", .vstr "y"]
      = ClosureOutcome.panicked "reflect: Call using wrong argument type" := by
  rfl

/-- C2 (amended): every failure during argument decoding or invocation is
recovered inside `handleFunction` and returned from it as an error value;
the closure installed by `RegisterForeignMethod` then re-raises exactly
that error as a panic, so the failure surfaces to the original `Interpret`
caller as a panic rather than as an error return from `Interpret`. -/
theorem dispatch_error_becomes_closure_panic (f : HostFunc) (slots : List WrenSlotVal) :
    (∀ s, handleFunction slots f = .ok s →
        foreignMethodClosure f slots = ClosureOutcome.normal s) ∧
    (∀ e, handleFunction slots f = .err e →
        foreignMethodClosure f slots = ClosureOutcome.panicked e) := by
  constructor <;> intro x h <;> simp [foreignMethodClosure, h]

theorem dispatch_error_becomes_closure_panic_witness :
    foreignMethodClosure goMathAddFn [.vunknown, .vnum 2, .vnum 3]
      = ClosureOutcome.normal [.vnum 5, .vnum 2, .vnum 3] :=
  (dispatch_error_becomes_closure_panic goMathAddFn [.vunknown, .vnum 2, .vnum 3]).1
    [.vnum 5, .vnum 2, .vnum 3] (by decide)

/-- C3: for every dispatch, if slot 0's tag is unknown/inaccessible the
decoding loop sets the offset to one at parameter 0 and decodes host
parameter `i` from slot `i + 1` for every `i`; otherwise the offset stays
zero and host parameter `i` is decoded from slot `i`. -/
theorem decode_offset_shift (slots : List WrenSlotVal) (ptypes : List GoType) :
    (isUnknownSlot slots 0 = true →
        decodeParams slots ptypes = decodeFrom slots 1 ptypes) ∧
    (isUnknownSlot slots 0 = false →
        decodeParams slots ptypes = decodeFrom slots 0 ptypes) :=
  ⟨fun h => decodeParams_unknown slots h ptypes,
   fun h => decodeParams_known slots h ptypes⟩

theorem decode_offset_shift_witness :
    decodeParams [.vunknown, .vnum 2] [.tfloat]
      = decodeFrom [.vunknown, .vnum 2] 1 [.tfloat] ∧
    decodeParams [.vnum 2, .vnum 3] [.tfloat]
      = decodeFrom [.vnum 2, .vnum 3] 0 [.tfloat] :=
  ⟨(decode_offset_shift [.vunknown, .vnum 2] [.tfloat]).1 rfl,
   (decode_offset_shift [.vnum 2, .vnum 3] [.tfloat]).2 rfl⟩

/-- C4: dispatching a registered two-argument numeric host method on a call
context whose receiver slot is inaccessible and whose argument slots hold
the doubles `a` and `b` decodes both arguments as numbers (converted to the
declared numeric parameter types), invokes the function on them, and
encodes the numeric result, widened back to a double, into slot 0. -/
theorem numeric_binop_dispatch (t1 t2 : GoType)
    (h1 : isNumericType t1 = true) (h2 : isNumericType t2 = true)
    (g : GoVal → GoVal → GoVal) (hg : ∀ x y, isNumericVal (g x y) = true)
    (a b : ℚ) :
    handleFunction [.vunknown, .vnum a, .vnum b] (mkBinop t1 t2 g)
      = .ok [.vnum (numWiden (g (numConv t1 a) (numConv t2 b))), .vnum a, .vnum b] := by
  cases t1 <;> cases t2 <;>
    first
      | exact absurd h1 (by decide)
      | exact absurd h2 (by decide)
      | exact saveToSlot_numeric _ 0 _ (hg _ _)

theorem numeric_binop_dispatch_witness :
    handleFunction [.vunknown, .vnum 2, .vnum 3] (mkBinop .tint .tint addG)
      = .ok [.vnum 5, .vnum 2, .vnum 3] := by
  rw [numeric_binop_dispatch .tint .tint rfl rfl addG (fun x y => rfl) 2 3]
  decide

/-- C5 counterexample: a bind-time method lookup arriving from a module
other than "main" returns a null pointer even though an entry for the
canonical key is present in the per-VM methods map, so the claim — which
promises the stored pointer for every lookup with that class, signature and
static flag — fails as stated. -/
theorem bindMethod_nonmain_counterexample :
    bindMethod [("A.b()", 7)] "other" "A" false "b()" = none ∧
    mapLookup [("A.b()", 7)] (canonicalName false "A" "b()") = some 7 := by
  constructor <;> decide

/-- C5 (amended): for every bind-time method lookup from the module "main",
the binder builds exactly the key `"static C.S"` when the static flag is
set and `"C.S"` otherwise, and returns the pointer stored under that key in
the per-VM methods map, or a null pointer when no entry exists. -/
theorem bindMethod_main_lookup (methods : List (String × Nat))
    (className : String) (isStatic : Bool) (signature : String) :
    bindMethod methods "main" className isStatic signature
      = mapLookup methods (canonicalName isStatic className signature) := by
  have hcond : ¬ ("main" ≠ "main") := fun h => h rfl
  have hk : ((if isStatic then "static " else "") ++ className ++ "." ++ signature)
      = canonicalName isStatic className signature := rfl
  rw [bindMethod, if_neg hcond, hk]
  cases hm : mapLookup methods (canonicalName isStatic className signature) <;>
    simp [hm]

/-- C6: every binding request from a module other than "main" is refused:
method binding returns a null pointer whatever the methods map holds, and
class binding panics (fatally) whatever the classes map holds. -/
theorem nonmain_binding_refused (module : String) (h : module ≠ "main") :
    (∀ methods className isStatic signature,
        bindMethod methods module className isStatic signature = none) ∧
    (∀ classes className,
        bindClass classes module className
          = .err "tried to bind foreign class from non-main module") := by
  constructor
  · intro methods className isStatic signature
    rw [bindMethod, if_pos h]
  · intro classes className
    rw [bindClass, if_pos h]

theorem nonmain_binding_refused_witness :
    bindMethod [("A.b()", 7)] "util" "A" false "b()" = none ∧
    bindClass [("God", 3)] "util" "God"
      = .err "tried to bind foreign class from non-main module" :=
  ⟨(nonmain_binding_refused "util" (by decide)).1 [("A.b()", 7)] "A" false "b()",
   (nonmain_binding_refused "util" (by decide)).2 [("God", 3)] "God"⟩

/-- C7: dispatching a host method whose declared parameters are all numeric
on a call context whose argument slots are all strings always fails with
the reflect type-mismatch error, whatever the function body is: the string
slots decode as strings and the call rejects them before the body can run,
so no silent coercion to a number occurs. -/
theorem string_args_type_mismatch (ptypes : List GoType)
    (body : List GoVal → Res (List GoVal)) (strs : List String)
    (hne : ptypes ≠ []) (hnum : ∀ t ∈ ptypes, isNumericType t = true)
    (hlen : strs.length = ptypes.length) :
    handleFunction (.vunknown :: strs.map .vstr) ⟨ptypes, body⟩
      = .err "reflect: Call using wrong argument type" := by
  obtain ⟨t, ts, rfl⟩ : ∃ t ts, ptypes = t :: ts := by
    cases ptypes with
    | nil => exact absurd rfl hne
    | cons t ts => exact ⟨t, ts, rfl⟩
  obtain ⟨s, ss, rfl⟩ : ∃ s ss, strs = s :: ss := by
    cases strs with
    | nil => simp at hlen
    | cons s ss => exact ⟨s, ss, rfl⟩
  have hdec : decodeParams (.vunknown :: (s :: ss).map .vstr) (t :: ts)
      = .ok ((s :: ss).map .gstring) := by
    rw [decodeParams_unknown (.vunknown :: (s :: ss).map .vstr) rfl (t :: ts)]
    have hshift : decodeFrom (WrenSlotVal.vunknown :: (s :: ss).map .vstr) 1 (t :: ts)
        = decodeFrom ((s :: ss).map .vstr) 0 (t :: ts) :=
      decodeFrom_cons_shift .vunknown ((s :: ss).map .vstr) (t :: ts) 0
    rw [hshift]
    exact decodeFrom_strings (s :: ss) (t :: ts) hlen
  have hassign : assignableTo (.gstring s) t = false := by
    have ht := hnum t (List.mem_cons_self t ts)
    cases t <;> simp_all [isNumericType, assignableTo]
  have hchk : checkArgs ((s :: ss).map .gstring) (t :: ts)
      = some "reflect: Call using wrong argument type" := by
    show (if assignableTo (.gstring s) t then checkArgs (ss.map .gstring) ts
          else some "reflect: Call using wrong argument type")
        = some "reflect: Call using wrong argument type"
    rw [hassign]
    simp
  simp only [handleFunction, hdec, goCall, hchk]

theorem string_args_type_mismatch_witness :
    handleFunction [.vunknown, .vstr "x", .vstr "y"] goMathAddFn
      = .err "reflect: Call using wrong argument type" :=
  string_args_type_mismatch [.tint, .tint] goMathAddFn.body ["x", "y"]
    (by decide) (by decide) rfl

/-- C8: when decoding and invocation succeed, a single return value is
encoded into slot 0 (writing only slot 0 when its kind is supported), and
zero return values leave every slot of the call context untouched. -/
theorem return_value_slot_zero (slots : List WrenSlotVal) (f : HostFunc)
    (args rets : List GoVal)
    (hdec : decodeParams slots f.paramTypes = .ok args)
    (hcall : goCall f args = .ok rets) :
    (∀ r, rets = [r] → handleFunction slots f = saveToSlot slots 0 r) ∧
    (∀ r w, rets = [r] → encodeScalar r = some w →
        handleFunction slots f = .ok (slots.set 0 w)) ∧
    (rets = [] → handleFunction slots f = .ok slots) := by
  refine ⟨?_, ?_, ?_⟩
  · intro r hr
    subst hr
    simp only [handleFunction, hdec, hcall]
  · intro r w hr hw
    subst hr
    simp only [handleFunction, hdec, hcall, saveToSlot_encode, hw]
  · intro hr
    subst hr
    simp only [handleFunction, hdec, hcall]

theorem return_value_slot_zero_witness :
    handleFunction [.vnum 7] noopFn = .ok [.vnum 7] :=
  (return_value_slot_zero [.vnum 7] noopFn [] [] rfl rfl).2.2 rfl

/-- C9: a successful `RegisterForeignMethod` or `RegisterForeignClass`
increments the process-wide trampoline counter by exactly one and stores
the freshly consumed index under the given name (overwriting any previous
binding of that name); success depends only on the counter and the
capacity, never on whether the name was already registered, and the counter
never decreases, so a consumed index is never reused. -/
theorem registration_consumes_fresh_slot (maxRegs : Nat) (g : RegState)
    (vm : VMRecord) (name className : String) (f : HostFunc) (ctor : Unit → GoVal) :
    (g.counter ≤ (RegisterForeignMethod maxRegs g vm name f).1.counter ∧
     g.counter ≤ (RegisterForeignClass maxRegs g vm className ctor).1.counter) ∧
    ((RegisterForeignMethod maxRegs g vm name f).2.2 = none ↔
        g.counter + 1 < maxRegs) ∧
    ((RegisterForeignClass maxRegs g vm className ctor).2.2 = none ↔
        g.counter + 1 < maxRegs) ∧
    ((RegisterForeignMethod maxRegs g vm name f).2.2 = none →
      (RegisterForeignMethod maxRegs g vm name f).1.counter = g.counter + 1 ∧
      mapLookup (RegisterForeignMethod maxRegs g vm name f).2.1.methods name
        = some g.counter) ∧
    ((RegisterForeignClass maxRegs g vm className ctor).2.2 = none →
      (RegisterForeignClass maxRegs g vm className ctor).1.counter = g.counter + 1 ∧
      mapLookup (RegisterForeignClass maxRegs g vm className ctor).2.1.classes className
        = some g.counter) := by
  by_cases hcap : g.counter + 1 ≥ maxRegs
  · simp [RegisterForeignMethod, RegisterForeignClass, registerFunc, hcap]
  · simp [RegisterForeignMethod, RegisterForeignClass, registerFunc, hcap,
      mapLookup, mapInsert]
    all_goals omega

theorem registration_consumes_fresh_slot_witness :
    (RegisterForeignMethod 128 ⟨5, []⟩ ⟨[("static GoMath.add(_,_)", 0)], []⟩
        "static GoMath.add(_,_)" goMathAddFn).1.counter = 5 + 1 ∧
    mapLookup (RegisterForeignMethod 128 ⟨5, []⟩ ⟨[("static GoMath.add(_,_)", 0)], []⟩
        "static GoMath.add(_,_)" goMathAddFn).2.1.methods "static GoMath.add(_,_)"
      = some 5 :=
  (registration_consumes_fresh_slot 128 ⟨5, []⟩ ⟨[("static GoMath.add(_,_)", 0)], []⟩
      "static GoMath.add(_,_)" "God" goMathAddFn (fun _ => GoVal.gptr 0)).2.2.2.1
    (by decide)

/-- C10: when the Wren call completes successfully and the return slot
holds null, `Value.Call` returns a nil value together with a nil error —
indistinguishable from a method that returned nothing. -/
theorem value_call_null_returns_nil (slots : List WrenSlotVal)
    (h : slots.get? 0 = some .vnull) :
    valueCallResult .success slots = .returned none none := by
  have h' : slots[0]? = some WrenSlotVal.vnull := by simpa using h
  simp [valueCallResult, interpretResultToErr, getFromSlot, h', goValIsValid]

theorem value_call_null_returns_nil_witness :
    valueCallResult .success [.vnull] = .returned none none :=
  value_call_null_returns_nil [.vnull] rfl
